import Mathlib

/-!
Verification of the submission workflow (`handlePost`) of the
`workers-itsu-dev-oekaki` Cloudflare Worker (`src/index.ts`).

The worker keeps three stores: a relational metadata store with an
`Images` table and a `Histories` table (Cloudflare D1), an object store
(`BUCKET`, Cloudflare R2), and an external Preview Host (imgur).  The
stores are modelled as explicit state (`Store`); the outcomes of the
external calls and of the individual DB statements, as well as the
generated UUIDs, request IP and `Date.now()` values, are supplied by an
oracle record `Env`, so `handlePost` becomes a pure function
`Env → Store → PostRequest → StepResult`.

Each branch of the Lean `handlePost` mirrors one branch of the
TypeScript `handlePost`; the list of emitted `Effect`s records which
store/external operations the request performed, in order.
-/

namespace Oekaki

/-- One row of the `Images` table (the Artifact record of the spec).
Columns exactly as in the `INSERT INTO Images` statement of `handlePost`:
`(id, author, ip, description, imgurId, count, deleteHash, created_at)`. -/
structure ImageRow where
  id : String
  author : String
  ip : Option String
  description : Option String
  imgurId : String
  count : Nat
  deleteHash : String
  created_at : Nat
deriving Repr, DecidableEq

/-- One row of the `Histories` table, columns as in the
`INSERT INTO Histories` statement: `(id, author, ip, image_id, created_at)`. -/
structure HistoryRow where
  id : String
  author : String
  ip : Option String
  image_id : String
  created_at : Nat
deriving Repr, DecidableEq

/-- Combined state of the metadata store (D1) and the object store (R2).
The bucket maps object keys to the stored bytes; a fresh put is consed on. -/
structure Store where
  images : List ImageRow
  histories : List HistoryRow
  bucket : List (String × List Nat)
deriving Repr, DecidableEq

/-- The parsed JSON body of a POST request (`PostRequest` in `index.ts`).
`payload` and `_bs` are `Option`s because the worker receives duck-typed
JSON: a missing field is `undefined` (here `none`). -/
structure PostRequest where
  id : Option String
  payload : Option (List Nat)
  description : Option String
  author : Option String
  _bs : Option String
deriving Repr, DecidableEq

/-- Result of the `BUCKET.put` call: a non-null R2 object, a `null`
return value, or a thrown fault (the `catch` branch). -/
inductive BlobPut where
  | okPut
  | nullPut
  | faultPut
deriving Repr, DecidableEq

/-- Oracle for everything outside the worker's own control flow: DB
statement errors, Preview-Host (imgur) responses, the R2 put result,
the generated UUIDs, the `CF-Connecting-IP` header and the `Date`
timestamps. -/
structure Env where
  lookupError : Bool
  imgurUploadOk : Bool
  imgurId : String
  deleteHash : String
  imgurDeleteOk : Bool
  insertImageError : Bool
  updateImageError : Bool
  insertHistoryError : Bool
  blobPut : BlobPut
  newImageId : String
  newHistoryId : String
  requestIp : Option String
  nowImage : Nat
  nowHistory : Nat
deriving Repr, DecidableEq

/-- A JSON response of the worker: the `success`, `reason` and `result`
fields of the body, plus the HTTP status. -/
structure JsonResp where
  success : Bool
  reason : Option String
  result : Option String
  status : Nat
deriving Repr, DecidableEq

/-- Outcome of one `handlePost` call: either a JSON response, or an
uncaught JavaScript exception escaping the handler. -/
inductive Outcome where
  | resp (r : JsonResp)
  | thrown
deriving Repr, DecidableEq

/-- External/store operations a request can perform, in program order. -/
inductive Effect where
  | dbSelect
  | imgurUpload
  | imgurDelete
  | dbInsertImage
  | dbUpdateImage
  | dbInsertHistory
  | dbDeleteImage
  | dbDeleteHistories
  | bucketPut
deriving Repr, DecidableEq

/-- Result of one request: the response (or fault), the store afterwards,
and the trace of performed operations. -/
structure StepResult where
  outcome : Outcome
  store : Store
  effects : List Effect
deriving Repr, DecidableEq

/-- `{ success: false, reason: 'bad request' }`, status 400. -/
def badRequestResp : JsonResp := ⟨false, some "bad request", none, 400⟩

/-- `{ success: false, reason: 'internal server error' }`, status 500. -/
def internalErrorResp : JsonResp := ⟨false, some "internal server error", none, 500⟩

/-- `{ success: false, reason: 'invalid image id' }`, status 400: the body
of the else branch at lines 215-228 of `index.ts`.  That branch is
unreachable: when no row matches, D1's `.first()` returns `null` and the
worker already threw at the `existingImage.error` read on line 185, so
this response is never actually produced (see the C3 theorem). -/
def invalidImageIdResp : JsonResp := ⟨false, some "invalid image id", none, 400⟩

/-- `{ success: false, reason: 'this image is already completed' }`, status 423. -/
def lockedResp : JsonResp := ⟨false, some "this image is already completed", none, 423⟩

/-- The response returned when the imgur upload is not ok: body reason
`'bad request'` but HTTP status 500 (lines 242-255 of `index.ts`). -/
def uploadFailResp : JsonResp := ⟨false, some "bad request", none, 500⟩

/-- `{ success: true, result: imageId }`, status 200. -/
def successResp (imageId : String) : JsonResp := ⟨true, none, some imageId, 200⟩

/-- The magic-header test of the validator, in JS index semantics:
`payload[i]` is `undefined` when `i` is out of range, so a list shorter
than 4 always fails.  Mirrors
`json.payload[0] !== 0x23 || ... || json.payload[3] !== 0xac` (negated). -/
def magicOk (payload : List Nat) : Bool :=
  payload.get? 0 == some 0x23 && payload.get? 1 == some 0x52 &&
  payload.get? 2 == some 0xff && payload.get? 3 == some 0xac

/-- `json.description != null && json.description.length > 20`. -/
def descTooLong (req : PostRequest) : Bool :=
  match req.description with
  | some d => decide (d.length > 20)
  | none => false

/-- `json.author == null ? '名無し' : json.author`. -/
def authorOf (req : PostRequest) : String :=
  match req.author with
  | none => "名無し"
  | some a => a

/-- The `rollBack` closure of `handlePost`: `DELETE From Images WHERE id = ?`
then `DELETE From Histories WHERE image_id = ?`.  Unconditional and
idempotent. -/
def rollBack (s : Store) (imageId : String) : Store :=
  { s with
    images := s.images.filter (fun r => !(r.id == imageId)),
    histories := s.histories.filter (fun h => !(h.image_id == imageId)) }

/-- Final stage: `BUCKET.put` of `payload.slice(4)` under key
`imageId + ".bin"`.  A `null` result or a thrown fault triggers
`rollBack()` unconditionally — on both the new and the existing path. -/
def finishBlob (env : Env) (s2 : Store) (imageId : String) (payload : List Nat)
    (effs : List Effect) : StepResult :=
  match env.blobPut with
  | .okPut =>
      { outcome := .resp (successResp imageId),
        store := { s2 with bucket := (imageId ++ ".bin", payload.drop 4) :: s2.bucket },
        effects := effs ++ [.bucketPut] }
  | .nullPut =>
      { outcome := .resp internalErrorResp,
        store := rollBack s2 imageId,
        effects := effs ++ [.bucketPut, .dbDeleteImage, .dbDeleteHistories] }
  | .faultPut =>
      { outcome := .resp internalErrorResp,
        store := rollBack s2 imageId,
        effects := effs ++ [.bucketPut, .dbDeleteImage, .dbDeleteHistories] }

/-- History stage: `INSERT INTO Histories`.  On a statement error the
worker rolls back only when the image record was created by this request
(`!alreadyExists`); otherwise it reports the error without compensation. -/
def finishHistory (env : Env) (s1 : Store) (imageId author : String)
    (alreadyExists : Bool) (payload : List Nat) (effs : List Effect) : StepResult :=
  if env.insertHistoryError then
    if alreadyExists then
      { outcome := .resp internalErrorResp, store := s1,
        effects := effs ++ [.dbInsertHistory] }
    else
      { outcome := .resp internalErrorResp, store := rollBack s1 imageId,
        effects := effs ++ [.dbInsertHistory, .dbDeleteImage, .dbDeleteHistories] }
  else
    finishBlob env
      { s1 with histories := s1.histories ++
          [⟨env.newHistoryId, author, env.requestIp, imageId, env.nowHistory⟩] }
      imageId payload (effs ++ [.dbInsertHistory])

/-- New-artifact branch (`!alreadyExists`): generate a fresh id and
`INSERT INTO Images (...) VALUES (?, ?, ?, ?, ?, 1, ?, ?)`. -/
def handleNewPath (env : Env) (s : Store) (req : PostRequest) (payload : List Nat)
    (author : String) (effs : List Effect) : StepResult :=
  if env.insertImageError then
    { outcome := .resp internalErrorResp, store := s,
      effects := effs ++ [.dbInsertImage] }
  else
    finishHistory env
      { s with images := s.images ++
          [⟨env.newImageId, author, env.requestIp, req.description,
            env.imgurId, 1, env.deleteHash, env.nowImage⟩] }
      env.newImageId author false payload (effs ++ [.dbInsertImage])

/-- Existing-artifact branch: imgur DELETE with the *old* `deleteHash`,
then `UPDATE Images SET imgurId = ?, created_at = ?, count = ? WHERE id = ?`
with count bound to `oldCount + 1`.  The `deleteHash` column is not in
the SET list and keeps its previous value. -/
def handleExistingPath (env : Env) (s : Store) (payload : List Nat)
    (author : String) (imageId : String) (oldCount : Nat)
    (effs : List Effect) : StepResult :=
  if !env.imgurDeleteOk then
    { outcome := .resp internalErrorResp, store := s,
      effects := effs ++ [.imgurDelete] }
  else if env.updateImageError then
    { outcome := .resp internalErrorResp, store := s,
      effects := effs ++ [.imgurDelete, .dbUpdateImage] }
  else
    finishHistory env
      { s with images := s.images.map (fun r =>
          if r.id == imageId then
            { r with imgurId := env.imgurId, created_at := env.nowImage,
                     count := oldCount + 1 }
          else r) }
      imageId author true payload (effs ++ [.imgurDelete, .dbUpdateImage])

/-- The submission workflow of `handlePost` (`index.ts` lines 104-428),
for an already parsed POST body.  Stages, in source order: input
validation (`_bs` null check, description length, magic header — a
missing `payload` field makes `json.payload[0]` throw a TypeError),
author defaulting and length check, target resolution by `id`
(`SELECT ... .first()`: a missing row is `null`, and the immediate
`existingImage.error` read on line 185 then throws an uncaught
TypeError; on a found row that read is checked, then the `count >= 10`
lock check), imgur upload, then the new/existing branch, history insert
and bucket put. -/
def handlePost (env : Env) (s : Store) (req : PostRequest) : StepResult :=
  if req._bs.isNone || descTooLong req then
    { outcome := .resp badRequestResp, store := s, effects := [] }
  else
    match req.payload with
    | none => { outcome := .thrown, store := s, effects := [] }
    | some payload =>
      if !magicOk payload then
        { outcome := .resp badRequestResp, store := s, effects := [] }
      else if (authorOf req).length > 20 then
        { outcome := .resp badRequestResp, store := s, effects := [] }
      else
        match req.id with
        | none =>
          if !env.imgurUploadOk then
            { outcome := .resp uploadFailResp, store := s,
              effects := [.imgurUpload] }
          else
            handleNewPath env s req payload (authorOf req) [.imgurUpload]
        | some imageId =>
          match s.images.find? (fun r => r.id == imageId) with
          | none =>
            -- D1's `.first()` returned null; reading `existingImage.error`
            -- on it (line 185) throws an uncaught TypeError, so the
            -- `invalid image id` else branch below it is never reached.
            { outcome := Outcome.thrown, store := s, effects := [.dbSelect] }
          | some row =>
            if env.lookupError then
              { outcome := .resp internalErrorResp, store := s,
                effects := [.dbSelect] }
            else
              if row.count ≥ 10 then
                { outcome := .resp lockedResp, store := s,
                  effects := [.dbSelect] }
              else if !env.imgurUploadOk then
                { outcome := .resp uploadFailResp, store := s,
                  effects := [.dbSelect, .imgurUpload] }
              else
                handleExistingPath env s payload (authorOf req) imageId
                  row.count [.dbSelect, .imgurUpload]

/-- Run a sequence of submissions, each with its own oracle. -/
def runSeq : List (Env × PostRequest) → Store → Store
  | [], s => s
  | (e, r) :: rest, s => runSeq rest (handlePost e s r).store

/-! ### Concrete sample data, used to instantiate the theorems -/

/-- An oracle on which every external call succeeds. -/
def sampleEnv : Env :=
  { lookupError := false, imgurUploadOk := true, imgurId := "newAsset",
    deleteHash := "newHash", imgurDeleteOk := true,
    insertImageError := false, updateImageError := false,
    insertHistoryError := false, blobPut := .okPut,
    newImageId := "fresh-1", newHistoryId := "hist-1",
    requestIp := some "1.2.3.4", nowImage := 100, nowHistory := 101 }

/-- An existing artifact row with three recorded revisions. -/
def sampleRow : ImageRow :=
  { id := "img1", author := "alice", ip := some "9.9.9.9",
    description := some "d", imgurId := "oldAsset", count := 3,
    deleteHash := "oldHash", created_at := 50 }

/-- A history row belonging to `sampleRow`. -/
def sampleHist : HistoryRow :=
  { id := "h0", author := "alice", ip := some "9.9.9.9",
    image_id := "img1", created_at := 50 }

/-- A store holding `sampleRow` and its history. -/
def sampleStore : Store :=
  { images := [sampleRow], histories := [sampleHist], bucket := [] }

/-- A store whose only artifact has reached the revision cap. -/
def lockedStore : Store :=
  { images := [{ sampleRow with count := 10 }], histories := [sampleHist],
    bucket := [] }

/-- A valid new-artifact submission (no `id`). -/
def validNewReq : PostRequest :=
  { id := none, payload := some [0x23, 0x52, 0xff, 0xac, 7, 8],
    description := none, author := some "bob", _bs := some "AAAA" }

/-- A valid revision submission targeting `sampleRow`. -/
def validReviseReq : PostRequest :=
  { id := some "img1", payload := some [0x23, 0x52, 0xff, 0xac, 7, 8],
    description := none, author := some "bob", _bs := some "AAAA" }

/-! ### Helper lemmas on the workflow -/

/-- A payload shorter than 4 bytes never passes the magic-header test. -/
lemma magicOk_short (payload : List Nat) (h : payload.length < 4) :
    magicOk payload = false := by
  have h3 : payload.get? 3 = none := List.get?_eq_none.mpr (by omega)
  simp only [magicOk, h3]
  simp

/-- Any request whose `payload` field is present but fails the magic test
is answered `bad request` with the store untouched and no effect emitted,
whatever the rest of the request and the environment look like. -/
lemma handlePost_badMagic (env : Env) (s : Store) (req : PostRequest)
    (payload : List Nat) (hpay : req.payload = some payload)
    (hmagic : magicOk payload = false) :
    handlePost env s req =
      { outcome := .resp badRequestResp, store := s, effects := [] } := by
  unfold handlePost
  cases h : (req._bs.isNone || descTooLong req) with
  | true => simp [h]
  | false => simp [h, hpay, hmagic]

/-- `find?` over the row-update `map` of the existing branch: the first
row matching the id, if any, is found in updated form. -/
lemma find?_map_update (l : List ImageRow) (i a : String) (t c : Nat) :
    (l.map (fun r => if r.id == i then
        { r with imgurId := a, created_at := t, count := c } else r)).find?
      (fun r => r.id == i)
    = (l.find? (fun r => r.id == i)).map
        (fun r => { r with imgurId := a, created_at := t, count := c }) := by
  induction l with
  | nil => rfl
  | cons r rest ih =>
    cases h : r.id == i with
    | true =>
      simp only [List.map_cons, if_pos h, List.find?, h, Option.map_some']
      simp [h]
    | false =>
      have h' : ¬ ((r.id == i) = true) := by simp [h]
      simp only [List.map_cons, if_neg h', List.find?, h, ih]
      simp [h]

/-- Filtering for a predicate right after filtering for its negation
leaves nothing. -/
lemma filter_negfilter {α : Type} (p : α → Bool) (l : List α) :
    (l.filter (fun x => !(p x))).filter p = [] := by
  apply List.filter_eq_nil_iff.mpr
  intro a ha
  have h2 := (List.mem_filter.mp ha).2
  simp only [Bool.not_eq_true'] at h2
  simp [h2]

/-- Full characterization of a successful new-artifact submission. -/
lemma handlePost_new_ok (env : Env) (s : Store) (req : PostRequest)
    (payload : List Nat)
    (hbs : req._bs.isNone = false) (hdesc : descTooLong req = false)
    (hpay : req.payload = some payload) (hmagic : magicOk payload = true)
    (hauth : ¬ (authorOf req).length > 20) (hid : req.id = none)
    (hup : env.imgurUploadOk = true) (hins : env.insertImageError = false)
    (hhist : env.insertHistoryError = false) (hblob : env.blobPut = .okPut) :
    handlePost env s req =
      { outcome := .resp (successResp env.newImageId),
        store :=
          { images := s.images ++
              [⟨env.newImageId, authorOf req, env.requestIp, req.description,
                env.imgurId, 1, env.deleteHash, env.nowImage⟩],
            histories := s.histories ++
              [⟨env.newHistoryId, authorOf req, env.requestIp, env.newImageId,
                env.nowHistory⟩],
            bucket := (env.newImageId ++ ".bin", payload.drop 4) :: s.bucket },
        effects := [.imgurUpload, .dbInsertImage, .dbInsertHistory,
                    .bucketPut] } := by
  simp [handlePost, handleNewPath, finishHistory, finishBlob,
        hbs, hdesc, hpay, hmagic, hauth, hid, hup, hins, hhist, hblob]

/-- Full characterization of a successful revision of an existing artifact:
row `row` found for id `i`, every later stage succeeds. -/
lemma handlePost_existing_ok (env : Env) (s : Store) (req : PostRequest)
    (payload : List Nat) (i : String) (row : ImageRow)
    (hbs : req._bs.isNone = false) (hdesc : descTooLong req = false)
    (hpay : req.payload = some payload) (hmagic : magicOk payload = true)
    (hauth : ¬ (authorOf req).length > 20)
    (hid : req.id = some i) (hlerr : env.lookupError = false)
    (hfind : s.images.find? (fun r => r.id == i) = some row)
    (hcount : row.count < 10)
    (hup : env.imgurUploadOk = true) (hdel : env.imgurDeleteOk = true)
    (hupd : env.updateImageError = false)
    (hhist : env.insertHistoryError = false) (hblob : env.blobPut = .okPut) :
    handlePost env s req =
      { outcome := .resp (successResp i),
        store :=
          { images := s.images.map (fun r =>
              if r.id == i then
                { r with imgurId := env.imgurId, created_at := env.nowImage,
                         count := row.count + 1 }
              else r),
            histories := s.histories ++
              [⟨env.newHistoryId, authorOf req, env.requestIp, i,
                env.nowHistory⟩],
            bucket := (i ++ ".bin", payload.drop 4) :: s.bucket },
        effects := [.dbSelect, .imgurUpload, .imgurDelete, .dbUpdateImage,
                    .dbInsertHistory, .bucketPut] } := by
  have hc : ¬ row.count ≥ 10 := by omega
  simp [handlePost, handleExistingPath, finishHistory, finishBlob,
        hbs, hdesc, hpay, hmagic, hauth, hid, hlerr, hfind, hc,
        hup, hdel, hupd, hhist, hblob]

/-- Characterization of a revision of an existing artifact on which every
stage up to and including the history insert succeeds but the bucket put
returns `null` or throws: the worker answers 500 and rolls back. -/
lemma handlePost_existing_blobFail (env : Env) (s : Store) (req : PostRequest)
    (payload : List Nat) (i : String) (row : ImageRow)
    (hbs : req._bs.isNone = false) (hdesc : descTooLong req = false)
    (hpay : req.payload = some payload) (hmagic : magicOk payload = true)
    (hauth : ¬ (authorOf req).length > 20)
    (hid : req.id = some i) (hlerr : env.lookupError = false)
    (hfind : s.images.find? (fun r => r.id == i) = some row)
    (hcount : row.count < 10)
    (hup : env.imgurUploadOk = true) (hdel : env.imgurDeleteOk = true)
    (hupd : env.updateImageError = false)
    (hhist : env.insertHistoryError = false) (hblob : env.blobPut ≠ .okPut) :
    handlePost env s req =
      { outcome := .resp internalErrorResp,
        store := rollBack
          { images := s.images.map (fun r =>
              if r.id == i then
                { r with imgurId := env.imgurId, created_at := env.nowImage,
                         count := row.count + 1 }
              else r),
            histories := s.histories ++
              [⟨env.newHistoryId, authorOf req, env.requestIp, i,
                env.nowHistory⟩],
            bucket := s.bucket } i,
        effects := [.dbSelect, .imgurUpload, .imgurDelete, .dbUpdateImage,
                    .dbInsertHistory, .bucketPut, .dbDeleteImage,
                    .dbDeleteHistories] } := by
  have hc : ¬ row.count ≥ 10 := by omega
  cases hb : env.blobPut with
  | okPut => exact absurd hb hblob
  | nullPut =>
    simp [handlePost, handleExistingPath, finishHistory, finishBlob,
          hbs, hdesc, hpay, hmagic, hauth, hid, hlerr, hfind, hc,
          hup, hdel, hupd, hhist, hb]
  | faultPut =>
    simp [handlePost, handleExistingPath, finishHistory, finishBlob,
          hbs, hdesc, hpay, hmagic, hauth, hid, hlerr, hfind, hc,
          hup, hdel, hupd, hhist, hb]

/-- Characterization of a new-artifact submission on which every stage up
to and including the history insert succeeds but the bucket put returns
`null` or throws: the worker answers 500 and rolls back. -/
lemma handlePost_new_blobFail (env : Env) (s : Store) (req : PostRequest)
    (payload : List Nat)
    (hbs : req._bs.isNone = false) (hdesc : descTooLong req = false)
    (hpay : req.payload = some payload) (hmagic : magicOk payload = true)
    (hauth : ¬ (authorOf req).length > 20) (hid : req.id = none)
    (hup : env.imgurUploadOk = true) (hins : env.insertImageError = false)
    (hhist : env.insertHistoryError = false) (hblob : env.blobPut ≠ .okPut) :
    handlePost env s req =
      { outcome := .resp internalErrorResp,
        store := rollBack
          { images := s.images ++
              [⟨env.newImageId, authorOf req, env.requestIp, req.description,
                env.imgurId, 1, env.deleteHash, env.nowImage⟩],
            histories := s.histories ++
              [⟨env.newHistoryId, authorOf req, env.requestIp, env.newImageId,
                env.nowHistory⟩],
            bucket := s.bucket } env.newImageId,
        effects := [.imgurUpload, .dbInsertImage, .dbInsertHistory,
                    .bucketPut, .dbDeleteImage, .dbDeleteHistories] } := by
  cases hb : env.blobPut with
  | okPut => exact absurd hb hblob
  | nullPut =>
    simp [handlePost, handleNewPath, finishHistory, finishBlob,
          hbs, hdesc, hpay, hmagic, hauth, hid, hup, hins, hhist, hb]
  | faultPut =>
    simp [handlePost, handleNewPath, finishHistory, finishBlob,
          hbs, hdesc, hpay, hmagic, hauth, hid, hup, hins, hhist, hb]

/-! ### The revision-count invariant -/

/-- Every artifact row in the store has `1 ≤ count ≤ 10`. -/
def StoreInv (s : Store) : Prop :=
  ∀ r ∈ s.images, 1 ≤ r.count ∧ r.count ≤ 10

lemma storeInv_rollBack {s : Store} {i : String} (h : StoreInv s) :
    StoreInv (rollBack s i) := by
  intro r hr
  exact h r (List.mem_of_mem_filter hr)

lemma storeInv_finishBlob {env : Env} {s2 : Store} {imageId : String}
    {payload : List Nat} {effs : List Effect} (h : StoreInv s2) :
    StoreInv (finishBlob env s2 imageId payload effs).store := by
  unfold finishBlob
  cases env.blobPut
  · exact fun r hr => h r hr
  · exact storeInv_rollBack h
  · exact storeInv_rollBack h

lemma storeInv_finishHistory {env : Env} {s1 : Store} {imageId author : String}
    {alreadyExists : Bool} {payload : List Nat} {effs : List Effect}
    (h : StoreInv s1) :
    StoreInv (finishHistory env s1 imageId author alreadyExists payload effs).store := by
  unfold finishHistory
  split
  · split
    · exact h
    · exact storeInv_rollBack h
  · exact storeInv_finishBlob (fun r hr => h r hr)

lemma storeInv_handleNewPath {env : Env} {s : Store} {req : PostRequest}
    {payload : List Nat} {author : String} {effs : List Effect}
    (h : StoreInv s) :
    StoreInv (handleNewPath env s req payload author effs).store := by
  unfold handleNewPath
  split
  · exact h
  · apply storeInv_finishHistory
    intro r hr
    rcases List.mem_append.mp hr with h1 | h1
    · exact h r h1
    · rcases List.mem_singleton.mp h1 with rfl
      exact ⟨by simp, by simp⟩

lemma storeInv_handleExistingPath {env : Env} {s : Store} {payload : List Nat}
    {author imageId : String} {oldCount : Nat} {effs : List Effect}
    (hOld : oldCount + 1 ≤ 10) (h : StoreInv s) :
    StoreInv (handleExistingPath env s payload author imageId oldCount effs).store := by
  unfold handleExistingPath
  split
  · exact h
  · split
    · exact h
    · apply storeInv_finishHistory
      intro r hr
      rcases List.mem_map.mp hr with ⟨a, ha, rfl⟩
      by_cases hid : (a.id == imageId) = true
      · simp only [if_pos hid]
        exact ⟨by omega, hOld⟩
      · simp only [if_neg hid]
        exact h a ha

/-- One submission, whatever its outcome, preserves the revision-count
invariant. -/
lemma storeInv_handlePost (env : Env) (s : Store) (req : PostRequest)
    (h : StoreInv s) : StoreInv (handlePost env s req).store := by
  unfold handlePost
  split
  · exact h
  · split
    · exact h
    · split
      · exact h
      · split
        · exact h
        · split
          · split
            · exact h
            · exact storeInv_handleNewPath h
          · split
            · exact h
            · split
              · exact h
              · split
                · exact h
                · split
                  · exact h
                  · exact storeInv_handleExistingPath (by omega) h


/-- Any sequence of submissions preserves the invariant. -/
lemma storeInv_runSeq (steps : List (Env × PostRequest)) (s : Store)
    (h : StoreInv s) : StoreInv (runSeq steps s) := by
  induction steps generalizing s with
  | nil => exact h
  | cons p rest ih =>
    obtain ⟨e, r⟩ := p
    exact ih (handlePost e s r).store (storeInv_handlePost e s r h)

/-! ### Claim theorems -/

/-- C7: every submission whose `payload` field is present but whose
first four bytes are not exactly 0x23 0x52 0xFF 0xAC (including payloads
shorter than four bytes) is rejected with the validation response
(HTTP 400, reason "bad request"); the store is untouched and the empty
effect trace shows that no metadata-store lookup or write, Preview-Host
call, or object-store write occurred. -/
theorem claim7_magic_mismatch_rejected_before_effects
    (env : Env) (s : Store) (req : PostRequest) (payload : List Nat)
    (hpay : req.payload = some payload) (hmagic : magicOk payload = false) :
    handlePost env s req =
      { outcome := .resp badRequestResp, store := s, effects := [] } :=
  handlePost_badMagic env s req payload hpay hmagic

/-- Witness for C7 at a concrete input with header 0x23 0x52 0xFF 0xAD. -/
theorem claim7_witness :
    handlePost sampleEnv sampleStore
      { validNewReq with payload := some [0x23, 0x52, 0xff, 0xad] } =
      { outcome := .resp badRequestResp, store := sampleStore, effects := [] } :=
  claim7_magic_mismatch_rejected_before_effects sampleEnv sampleStore
    { validNewReq with payload := some [0x23, 0x52, 0xff, 0xad] }
    [0x23, 0x52, 0xff, 0xad] rfl (by decide)

/-- C9 counterexample: the claim says a submission whose `_bs` is absent
or empty is rejected by validation; the code only checks `_bs == null`,
so a present-but-empty `_bs` passes validation and this concrete
submission completes with a success response instead of a rejection. -/
theorem claim9_counterexample :
    (handlePost sampleEnv sampleStore
        { validNewReq with _bs := some "" }).outcome
      = Outcome.resp (successResp "fresh-1")
    ∧ Outcome.resp (successResp "fresh-1") ≠ Outcome.resp badRequestResp :=
  ⟨by decide, by decide⟩

/-- C9 (amended): a submission whose `_bs` field is absent is rejected
with the structured validation response (HTTP 400, reason "bad
request"), with no store change and no effects; an empty-string `_bs`
is not rejected. -/
theorem claim9_absent_bs_rejected
    (env : Env) (s : Store) (req : PostRequest) (hbs : req._bs = none) :
    handlePost env s req =
      { outcome := .resp badRequestResp, store := s, effects := [] } := by
  simp [handlePost, hbs]

/-- Witness for C9's amended theorem. -/
theorem claim9_witness :
    handlePost sampleEnv sampleStore { validNewReq with _bs := none } =
      { outcome := .resp badRequestResp, store := sampleStore, effects := [] } :=
  claim9_absent_bs_rejected sampleEnv sampleStore
    { validNewReq with _bs := none } rfl

/-- C5 counterexample: a submission with `_bs` present and no `payload`
field makes `json.payload[0]` throw a TypeError, so the outcome is a
thrown fault, not the structured 400 validation response the claim
requires. -/
theorem claim5_counterexample :
    (handlePost sampleEnv sampleStore
        { validNewReq with payload := none }).outcome = Outcome.thrown
    ∧ Outcome.thrown ≠ Outcome.resp badRequestResp :=
  ⟨by decide, by decide⟩

/-- C5 (amended): a payload that is present but shorter than 4 bytes is
reported as the structured 400 validation response, with no store change
and no effects; a submission whose payload field is absent (with `_bs`
present and description within limit) instead raises a thrown fault
(uncaught TypeError), equally without store change or effects. -/
theorem claim5_short_payload_rejected_absent_payload_throws :
    (∀ (env : Env) (s : Store) (req : PostRequest) (payload : List Nat),
        req.payload = some payload → payload.length < 4 →
        handlePost env s req =
          { outcome := .resp badRequestResp, store := s, effects := [] })
    ∧ (∀ (env : Env) (s : Store) (req : PostRequest),
        req._bs.isNone = false → descTooLong req = false →
        req.payload = none →
        handlePost env s req =
          { outcome := Outcome.thrown, store := s, effects := [] }) := by
  constructor
  · intro env s req payload hpay hlen
    exact handlePost_badMagic env s req payload hpay (magicOk_short payload hlen)
  · intro env s req hbs hdesc hpay
    simp [handlePost, hbs, hdesc, hpay]

/-- Witness for C5's amended theorem. -/
theorem claim5_witness :
    handlePost sampleEnv sampleStore
      { validNewReq with payload := some [0x23] } =
      { outcome := .resp badRequestResp, store := sampleStore, effects := [] }
    ∧ handlePost sampleEnv sampleStore { validNewReq with payload := none } =
      { outcome := Outcome.thrown, store := sampleStore, effects := [] } :=
  ⟨claim5_short_payload_rejected_absent_payload_throws.1 sampleEnv sampleStore
      { validNewReq with payload := some [0x23] } [0x23] rfl (by decide),
   claim5_short_payload_rejected_absent_payload_throws.2 sampleEnv sampleStore
      { validNewReq with payload := none } (by decide) (by decide) rfl⟩

/-- C6 counterexample: with the imgur upload not ok, the worker responds
HTTP 500 with body reason "bad request", not the
"internal server error" body the claim states. -/
theorem claim6_counterexample :
    (handlePost { sampleEnv with imgurUploadOk := false } sampleStore
        validNewReq).outcome = Outcome.resp uploadFailResp
    ∧ uploadFailResp.reason = some "bad request"
    ∧ uploadFailResp ≠ internalErrorResp :=
  ⟨by decide, by decide, by decide⟩

/-- C6 (amended): on a non-success Preview-Host upload, the workflow
aborts with HTTP 500 and body { success: false, reason: "bad request" },
the store is unchanged, and the only effects are the lookup (revision
path only) and the upload itself — no store write happened. -/
theorem claim6_upload_failure_aborts_unmutated
    (env : Env) (s : Store) (req : PostRequest) (payload : List Nat)
    (hbs : req._bs.isNone = false) (hdesc : descTooLong req = false)
    (hpay : req.payload = some payload) (hmagic : magicOk payload = true)
    (hauth : ¬ (authorOf req).length > 20)
    (hup : env.imgurUploadOk = false) :
    (req.id = none →
      handlePost env s req =
        { outcome := .resp uploadFailResp, store := s,
          effects := [.imgurUpload] })
    ∧ (∀ (i : String) (row : ImageRow), req.id = some i →
        env.lookupError = false →
        s.images.find? (fun r => r.id == i) = some row → row.count < 10 →
        handlePost env s req =
          { outcome := .resp uploadFailResp, store := s,
            effects := [.dbSelect, .imgurUpload] }) := by
  constructor
  · intro hid
    simp [handlePost, hbs, hdesc, hpay, hmagic, hauth, hid, hup]
  · intro i row hid hlerr hfind hcount
    have hc : ¬ row.count ≥ 10 := by omega
    simp [handlePost, hbs, hdesc, hpay, hmagic, hauth, hid, hlerr, hfind,
          hc, hup]

/-- Witness for C6's amended theorem, on both paths. -/
theorem claim6_witness :
    handlePost { sampleEnv with imgurUploadOk := false } sampleStore
        validNewReq =
      { outcome := .resp uploadFailResp, store := sampleStore,
        effects := [.imgurUpload] }
    ∧ handlePost { sampleEnv with imgurUploadOk := false } sampleStore
        validReviseReq =
      { outcome := .resp uploadFailResp, store := sampleStore,
        effects := [.dbSelect, .imgurUpload] } :=
  ⟨(claim6_upload_failure_aborts_unmutated
      { sampleEnv with imgurUploadOk := false } sampleStore validNewReq
      [0x23, 0x52, 0xff, 0xac, 7, 8] (by decide) (by decide) rfl (by decide)
      (by decide) rfl).1 rfl,
   (claim6_upload_failure_aborts_unmutated
      { sampleEnv with imgurUploadOk := false } sampleStore validReviseReq
      [0x23, 0x52, 0xff, 0xac, 7, 8] (by decide) (by decide) rfl (by decide)
      (by decide) rfl).2 "img1" sampleRow rfl rfl (by decide) (by decide)⟩

/-- C3 (code bug): a valid submission targeting an artifact id with no
matching row never produces the structured "invalid image id" 400
response the claim (and the code's own else branch at index.ts lines
215-228) describes: `DB...first()` returns `null` for a missing row and
the worker dereferences it at `existingImage.error` (line 185), so the
request dies with an uncaught TypeError.  The store is unchanged and the
lookup is the only effect, but the outcome is a thrown fault, not the
structured response. -/
theorem claim3_unknown_id_throws_typeerror
    (env : Env) (s : Store) (req : PostRequest) (payload : List Nat)
    (i : String)
    (hbs : req._bs.isNone = false) (hdesc : descTooLong req = false)
    (hpay : req.payload = some payload) (hmagic : magicOk payload = true)
    (hauth : ¬ (authorOf req).length > 20)
    (hid : req.id = some i)
    (hfind : s.images.find? (fun r => r.id == i) = none) :
    handlePost env s req =
      { outcome := Outcome.thrown, store := s, effects := [.dbSelect] }
    ∧ Outcome.thrown ≠ Outcome.resp invalidImageIdResp := by
  constructor
  · simp [handlePost, hbs, hdesc, hpay, hmagic, hauth, hid, hfind]
  · intro hcontra
    exact Outcome.noConfusion hcontra

/-- Witness for C3's theorem at the concrete unknown id "nope". -/
theorem claim3_throws_witness :
    handlePost sampleEnv sampleStore
        { validReviseReq with id := some "nope" } =
      { outcome := Outcome.thrown, store := sampleStore,
        effects := [.dbSelect] }
    ∧ Outcome.thrown ≠ Outcome.resp invalidImageIdResp :=
  claim3_unknown_id_throws_typeerror sampleEnv sampleStore
    { validReviseReq with id := some "nope" }
    [0x23, 0x52, 0xff, 0xac, 7, 8] "nope" (by decide) (by decide) rfl
    (by decide) (by decide) rfl (by decide)

/-- C8: a valid submission carrying no artifact id, on which the upload,
both inserts and the bucket put succeed, returns success with the
freshly generated artifact id, appends an Artifact row with
revisionCount 1, and a History entry referencing that id exists. -/
theorem claim8_new_artifact_created
    (env : Env) (s : Store) (req : PostRequest) (payload : List Nat)
    (hbs : req._bs.isNone = false) (hdesc : descTooLong req = false)
    (hpay : req.payload = some payload) (hmagic : magicOk payload = true)
    (hauth : ¬ (authorOf req).length > 20) (hid : req.id = none)
    (hup : env.imgurUploadOk = true) (hins : env.insertImageError = false)
    (hhist : env.insertHistoryError = false) (hblob : env.blobPut = .okPut) :
    (handlePost env s req).outcome = .resp (successResp env.newImageId)
    ∧ (handlePost env s req).store.images = s.images ++
        [⟨env.newImageId, authorOf req, env.requestIp, req.description,
          env.imgurId, 1, env.deleteHash, env.nowImage⟩]
    ∧ ∃ hrow ∈ (handlePost env s req).store.histories,
        hrow.image_id = env.newImageId := by
  have h1 := handlePost_new_ok env s req payload hbs hdesc hpay hmagic hauth
    hid hup hins hhist hblob
  refine ⟨by simp only [h1], by simp only [h1], ?_⟩
  simp only [h1]
  exact ⟨⟨env.newHistoryId, authorOf req, env.requestIp, env.newImageId,
          env.nowHistory⟩, by simp, rfl⟩

/-- Witness for C8 at a concrete new-artifact submission. -/
theorem claim8_witness :
    (handlePost sampleEnv sampleStore validNewReq).outcome
      = .resp (successResp sampleEnv.newImageId)
    ∧ (handlePost sampleEnv sampleStore validNewReq).store.images
      = sampleStore.images ++
        [⟨sampleEnv.newImageId, authorOf validNewReq, sampleEnv.requestIp,
          validNewReq.description, sampleEnv.imgurId, 1,
          sampleEnv.deleteHash, sampleEnv.nowImage⟩]
    ∧ ∃ hrow ∈ (handlePost sampleEnv sampleStore validNewReq).store.histories,
        hrow.image_id = sampleEnv.newImageId :=
  claim8_new_artifact_created sampleEnv sampleStore validNewReq
    [0x23, 0x52, 0xff, 0xac, 7, 8] (by decide) (by decide) rfl (by decide)
    (by decide) rfl rfl rfl rfl rfl

/-- C4 counterexample: at a concrete accepted revision the Preview Host
returned delete token "newHash", yet the stored row keeps its previous
delete token "oldHash" even though the asset id was updated: the UPDATE
does not write the delete-token column as the claim asserts. -/
theorem claim4_counterexample :
    (handlePost sampleEnv sampleStore validReviseReq).outcome
      = .resp (successResp "img1")
    ∧ ((handlePost sampleEnv sampleStore validReviseReq).store.images.find?
        (fun r => r.id == "img1")).map (fun r => r.deleteHash)
      = some "oldHash"
    ∧ sampleEnv.deleteHash = "newHash"
    ∧ (some "oldHash" : Option String) ≠ some "newHash" :=
  ⟨by decide, by decide, by decide, by decide⟩

/-- C4 (amended): on every accepted revision the Artifact row's preview
asset id is set to the uploaded asset's id, the timestamp is refreshed
and revisionCount is incremented by 1, but the preview delete token
keeps its previous value: the UPDATE statement does not include the
deleteHash column. -/
theorem claim4_revision_updates_asset_not_delete_token
    (env : Env) (s : Store) (req : PostRequest) (payload : List Nat)
    (i : String) (row : ImageRow)
    (hbs : req._bs.isNone = false) (hdesc : descTooLong req = false)
    (hpay : req.payload = some payload) (hmagic : magicOk payload = true)
    (hauth : ¬ (authorOf req).length > 20)
    (hid : req.id = some i) (hlerr : env.lookupError = false)
    (hfind : s.images.find? (fun r => r.id == i) = some row)
    (hcount : row.count < 10)
    (hup : env.imgurUploadOk = true) (hdel : env.imgurDeleteOk = true)
    (hupd : env.updateImageError = false)
    (hhist : env.insertHistoryError = false) (hblob : env.blobPut = .okPut) :
    (handlePost env s req).store.images.find? (fun r => r.id == i) =
      some { row with imgurId := env.imgurId, created_at := env.nowImage,
                      count := row.count + 1 } := by
  have h1 := handlePost_existing_ok env s req payload i row hbs hdesc hpay
    hmagic hauth hid hlerr hfind hcount hup hdel hupd hhist hblob
  simp only [h1]
  rw [find?_map_update, hfind, Option.map_some']

/-- Witness for C4's amended theorem. -/
theorem claim4_witness :
    (handlePost sampleEnv sampleStore validReviseReq).store.images.find?
        (fun r => r.id == "img1") =
      some { sampleRow with imgurId := sampleEnv.imgurId,
                            created_at := sampleEnv.nowImage,
                            count := sampleRow.count + 1 } :=
  claim4_revision_updates_asset_not_delete_token sampleEnv sampleStore
    validReviseReq [0x23, 0x52, 0xff, 0xac, 7, 8] "img1" sampleRow
    (by decide) (by decide) rfl (by decide) (by decide) rfl rfl (by decide)
    (by decide) rfl rfl rfl rfl rfl

/-- C10: on every accepted revision, the resulting Images table is the
old one with exactly the rows carrying the target id rewritten in their
imgurId, created_at and count columns; the author, ip, description and
deleteHash columns of the target row, and every other row entirely, are
unchanged. -/
theorem claim10_revision_update_frame
    (env : Env) (s : Store) (req : PostRequest) (payload : List Nat)
    (i : String) (row : ImageRow)
    (hbs : req._bs.isNone = false) (hdesc : descTooLong req = false)
    (hpay : req.payload = some payload) (hmagic : magicOk payload = true)
    (hauth : ¬ (authorOf req).length > 20)
    (hid : req.id = some i) (hlerr : env.lookupError = false)
    (hfind : s.images.find? (fun r => r.id == i) = some row)
    (hcount : row.count < 10)
    (hup : env.imgurUploadOk = true) (hdel : env.imgurDeleteOk = true)
    (hupd : env.updateImageError = false)
    (hhist : env.insertHistoryError = false) (hblob : env.blobPut = .okPut) :
    (handlePost env s req).store.images =
      s.images.map (fun r =>
        if r.id == i then
          { r with imgurId := env.imgurId, created_at := env.nowImage,
                   count := row.count + 1 }
        else r) := by
  have h1 := handlePost_existing_ok env s req payload i row hbs hdesc hpay
    hmagic hauth hid hlerr hfind hcount hup hdel hupd hhist hblob
  simp only [h1]

/-- Witness for C10. -/
theorem claim10_witness :
    (handlePost sampleEnv sampleStore validReviseReq).store.images =
      sampleStore.images.map (fun r =>
        if r.id == "img1" then
          { r with imgurId := sampleEnv.imgurId,
                   created_at := sampleEnv.nowImage,
                   count := sampleRow.count + 1 }
        else r) :=
  claim10_revision_update_frame sampleEnv sampleStore validReviseReq
    [0x23, 0x52, 0xff, 0xac, 7, 8] "img1" sampleRow
    (by decide) (by decide) rfl (by decide) (by decide) rfl rfl (by decide)
    (by decide) rfl rfl rfl rfl rfl

/-- C1 counterexample: a revision of the existing artifact "img1" whose
bucket put returns null: the claim says no compensation runs on the
existing path and the updated row persists, but the rollback deletes the
Artifact row and all its History rows. -/
theorem claim1_counterexample :
    (handlePost { sampleEnv with blobPut := .nullPut } sampleStore
        validReviseReq).store.images = []
    ∧ (handlePost { sampleEnv with blobPut := .nullPut } sampleStore
        validReviseReq).store.histories = []
    ∧ sampleStore.images ≠ [] ∧ sampleStore.histories ≠ [] :=
  ⟨by decide, by decide, by decide, by decide⟩

/-- C1 (amended): when the object-store write returns null or throws,
compensation — deleting the Artifact row and all History rows for the
artifact id — runs on BOTH paths, the existing-artifact (revision) path
included, and the response is the 500 internal error. -/
theorem claim1_blob_failure_compensates_on_both_paths :
    (∀ (env : Env) (s : Store) (req : PostRequest) (payload : List Nat)
        (i : String) (row : ImageRow),
      req._bs.isNone = false → descTooLong req = false →
      req.payload = some payload → magicOk payload = true →
      ¬ (authorOf req).length > 20 →
      req.id = some i → env.lookupError = false →
      s.images.find? (fun r => r.id == i) = some row → row.count < 10 →
      env.imgurUploadOk = true → env.imgurDeleteOk = true →
      env.updateImageError = false → env.insertHistoryError = false →
      env.blobPut ≠ .okPut →
      (handlePost env s req).outcome = .resp internalErrorResp
      ∧ (handlePost env s req).store.images.filter (fun r => r.id == i) = []
      ∧ (handlePost env s req).store.histories.filter
          (fun h => h.image_id == i) = [])
    ∧ (∀ (env : Env) (s : Store) (req : PostRequest) (payload : List Nat),
      req._bs.isNone = false → descTooLong req = false →
      req.payload = some payload → magicOk payload = true →
      ¬ (authorOf req).length > 20 →
      req.id = none → env.imgurUploadOk = true →
      env.insertImageError = false → env.insertHistoryError = false →
      env.blobPut ≠ .okPut →
      (handlePost env s req).outcome = .resp internalErrorResp
      ∧ (handlePost env s req).store.images.filter
          (fun r => r.id == env.newImageId) = []
      ∧ (handlePost env s req).store.histories.filter
          (fun h => h.image_id == env.newImageId) = []) := by
  constructor
  · intro env s req payload i row hbs hdesc hpay hmagic hauth hid hlerr
      hfind hcount hup hdel hupd hhist hblob
    have h1 := handlePost_existing_blobFail env s req payload i row hbs hdesc
      hpay hmagic hauth hid hlerr hfind hcount hup hdel hupd hhist hblob
    refine ⟨by simp only [h1], ?_, ?_⟩
    · simp only [h1, rollBack]
      exact filter_negfilter _ _
    · simp only [h1, rollBack]
      exact filter_negfilter _ _
  · intro env s req payload hbs hdesc hpay hmagic hauth hid hup hins
      hhist hblob
    have h1 := handlePost_new_blobFail env s req payload hbs hdesc hpay
      hmagic hauth hid hup hins hhist hblob
    refine ⟨by simp only [h1], ?_, ?_⟩
    · simp only [h1, rollBack]
      exact filter_negfilter _ _
    · simp only [h1, rollBack]
      exact filter_negfilter _ _

/-- Witness for C1's amended theorem, on both paths. -/
theorem claim1_witness :
    ((handlePost { sampleEnv with blobPut := .nullPut } sampleStore
        validReviseReq).outcome = .resp internalErrorResp
      ∧ (handlePost { sampleEnv with blobPut := .nullPut } sampleStore
          validReviseReq).store.images.filter (fun r => r.id == "img1") = []
      ∧ (handlePost { sampleEnv with blobPut := .nullPut } sampleStore
          validReviseReq).store.histories.filter
            (fun h => h.image_id == "img1") = [])
    ∧ ((handlePost { sampleEnv with blobPut := .faultPut } sampleStore
        validNewReq).outcome = .resp internalErrorResp
      ∧ (handlePost { sampleEnv with blobPut := .faultPut } sampleStore
          validNewReq).store.images.filter
            (fun r => r.id == { sampleEnv with
              blobPut := BlobPut.faultPut }.newImageId) = []
      ∧ (handlePost { sampleEnv with blobPut := .faultPut } sampleStore
          validNewReq).store.histories.filter
            (fun h => h.image_id == { sampleEnv with
              blobPut := BlobPut.faultPut }.newImageId) = []) :=
  ⟨claim1_blob_failure_compensates_on_both_paths.1
      { sampleEnv with blobPut := .nullPut } sampleStore validReviseReq
      [0x23, 0x52, 0xff, 0xac, 7, 8] "img1" sampleRow
      (by decide) (by decide) rfl (by decide) (by decide) rfl rfl (by decide)
      (by decide) rfl rfl rfl rfl (by decide),
   claim1_blob_failure_compensates_on_both_paths.2
      { sampleEnv with blobPut := .faultPut } sampleStore validNewReq
      [0x23, 0x52, 0xff, 0xac, 7, 8]
      (by decide) (by decide) rfl (by decide) (by decide) rfl rfl rfl rfl
      (by decide)⟩

/-- C2: (i) the invariant "every Artifact row has 1 ≤ revisionCount ≤ 10"
is preserved by any sequence of submissions; (ii) a successful creation
appends the row with revisionCount exactly 1; (iii) a successful
revision sets the target row's revisionCount to exactly its old value
plus 1; (iv) once a row's revisionCount has reached 10, any further
revision request for its id is rejected with the 423 locked response and
the store is unchanged, the lookup being the only effect. -/
theorem claim2_revision_count_invariant :
    (∀ (steps : List (Env × PostRequest)) (s : Store),
        StoreInv s → StoreInv (runSeq steps s))
    ∧ (∀ (env : Env) (s : Store) (req : PostRequest) (payload : List Nat),
        req._bs.isNone = false → descTooLong req = false →
        req.payload = some payload → magicOk payload = true →
        ¬ (authorOf req).length > 20 → req.id = none →
        env.imgurUploadOk = true → env.insertImageError = false →
        env.insertHistoryError = false → env.blobPut = .okPut →
        (handlePost env s req).store.images = s.images ++
          [⟨env.newImageId, authorOf req, env.requestIp, req.description,
            env.imgurId, 1, env.deleteHash, env.nowImage⟩])
    ∧ (∀ (env : Env) (s : Store) (req : PostRequest) (payload : List Nat)
          (i : String) (row : ImageRow),
        req._bs.isNone = false → descTooLong req = false →
        req.payload = some payload → magicOk payload = true →
        ¬ (authorOf req).length > 20 →
        req.id = some i → env.lookupError = false →
        s.images.find? (fun r => r.id == i) = some row → row.count < 10 →
        env.imgurUploadOk = true → env.imgurDeleteOk = true →
        env.updateImageError = false → env.insertHistoryError = false →
        env.blobPut = .okPut →
        ((handlePost env s req).store.images.find? (fun r => r.id == i)).map
            (fun r => r.count) = some (row.count + 1))
    ∧ (∀ (env : Env) (s : Store) (req : PostRequest) (payload : List Nat)
          (i : String) (row : ImageRow),
        req._bs.isNone = false → descTooLong req = false →
        req.payload = some payload → magicOk payload = true →
        ¬ (authorOf req).length > 20 →
        req.id = some i → env.lookupError = false →
        s.images.find? (fun r => r.id == i) = some row → row.count = 10 →
        handlePost env s req =
          { outcome := .resp lockedResp, store := s,
            effects := [.dbSelect] }) := by
  refine ⟨storeInv_runSeq, ?_, ?_, ?_⟩
  · intro env s req payload hbs hdesc hpay hmagic hauth hid hup hins
      hhist hblob
    have h1 := handlePost_new_ok env s req payload hbs hdesc hpay hmagic
      hauth hid hup hins hhist hblob
    simp only [h1]
  · intro env s req payload i row hbs hdesc hpay hmagic hauth hid hlerr
      hfind hcount hup hdel hupd hhist hblob
    have h1 := handlePost_existing_ok env s req payload i row hbs hdesc hpay
      hmagic hauth hid hlerr hfind hcount hup hdel hupd hhist hblob
    simp only [h1]
    rw [find?_map_update, hfind, Option.map_some', Option.map_some']
  · intro env s req payload i row hbs hdesc hpay hmagic hauth hid hlerr
      hfind hcount
    have hc : row.count ≥ 10 := by omega
    simp [handlePost, hbs, hdesc, hpay, hmagic, hauth, hid, hlerr, hfind, hc]

/-- Witness for C2: the four conjuncts at concrete inputs — a run from
the empty store, a concrete creation, a concrete increment from 3 to 4,
and a concrete locked rejection at count 10. -/
theorem claim2_witness :
    StoreInv (runSeq [(sampleEnv, validNewReq)]
        { images := [], histories := [], bucket := [] })
    ∧ (handlePost sampleEnv sampleStore validNewReq).store.images
      = sampleStore.images ++
        [⟨sampleEnv.newImageId, authorOf validNewReq, sampleEnv.requestIp,
          validNewReq.description, sampleEnv.imgurId, 1,
          sampleEnv.deleteHash, sampleEnv.nowImage⟩]
    ∧ ((handlePost sampleEnv sampleStore validReviseReq).store.images.find?
        (fun r => r.id == "img1")).map (fun r => r.count)
      = some (sampleRow.count + 1)
    ∧ handlePost sampleEnv lockedStore validReviseReq =
        { outcome := .resp lockedResp, store := lockedStore,
          effects := [.dbSelect] } :=
  ⟨claim2_revision_count_invariant.1 [(sampleEnv, validNewReq)]
      { images := [], histories := [], bucket := [] }
      (fun r hr => by simp at hr),
   claim2_revision_count_invariant.2.1 sampleEnv sampleStore validNewReq
      [0x23, 0x52, 0xff, 0xac, 7, 8] (by decide) (by decide) rfl (by decide)
      (by decide) rfl rfl rfl rfl rfl,
   claim2_revision_count_invariant.2.2.1 sampleEnv sampleStore validReviseReq
      [0x23, 0x52, 0xff, 0xac, 7, 8] "img1" sampleRow
      (by decide) (by decide) rfl (by decide) (by decide) rfl rfl (by decide)
      (by decide) rfl rfl rfl rfl rfl,
   claim2_revision_count_invariant.2.2.2 sampleEnv lockedStore validReviseReq
      [0x23, 0x52, 0xff, 0xac, 7, 8] "img1" { sampleRow with count := 10 }
      (by decide) (by decide) rfl (by decide) (by decide) rfl rfl (by decide)
      rfl⟩

end Oekaki
